import Mathlib

/-!
Verification of the agri_chatbot repository (src/agri_chatbot.py) against its
natural-language specification.

The Python source is shallowly embedded: pure string manipulations become Lean
functions on `String`; external collaborators (speech-to-text, text-to-speech,
generation model) become oracle parameters; the file system becomes an explicit
`List String` of existing file names; console output becomes an explicit
`List String` of printed messages.  Components the specification describes but
that are absent from src/ (the escalation policy and language detector of the
"third variant") are modelled from the spec, and are marked as such.
-/

/-- ASCII lowercase of one character, the behaviour of Python `str.lower` on
the ASCII range (every string this program compares after lowering is ASCII). -/
def lowerChar (c : Char) : Char :=
  if 'A' ≤ c ∧ c ≤ 'Z' then Char.ofNat (c.toNat + 32) else c

/-- Python `str.lower`, restricted to the ASCII case mapping. -/
def pyLower (s : String) : String := ⟨s.data.map lowerChar⟩

/-- Whitespace characters removed by Python `str.strip` in the ASCII range:
space, tab, newline, carriage return, vertical tab, form feed. -/
def isPyWhitespace (c : Char) : Bool :=
  c = ' ' || c = '\t' || c = '\n' || c = '\r' || c = Char.ofNat 11 || c = Char.ofNat 12

/-- Python `str.strip`: drop leading and trailing whitespace. -/
def pyStrip (s : String) : String :=
  ⟨((s.data.dropWhile isPyWhitespace).reverse.dropWhile isPyWhitespace).reverse⟩

/-- Python substring containment `needle in hay`, on character lists. -/
def containsSub (needle : List Char) : List Char → Bool
  | [] => needle.isEmpty
  | c :: rest => needle.isPrefixOf (c :: rest) || containsSub needle rest

/-- The two supported languages (spec §3: Language is enumerated
{english, malayalam}). -/
inductive SpecLang where
  | english
  | malayalam
deriving DecidableEq

/-- Modelled from the spec: the language detector of the third variant is not
in src/.  Spec §4.1: a character classifies the text as Malayalam when it
falls in the Malayalam Unicode block (U+0D00–U+0D7F). -/
def is_malayalam_char (c : Char) : Bool :=
  0x0D00 ≤ c.toNat && c.toNat ≤ 0x0D7F

/-- Modelled from the spec: the language detector of the third variant is not
in src/.  Spec §4.1: "if any character falls in the Malayalam Unicode block,
classify as Malayalam; otherwise English". -/
def detect_language (text : String) : SpecLang :=
  if text.data.any is_malayalam_char then .malayalam else .english

/-- Modelled from the spec: the escalation policy of the third variant is not
in src/.  Spec §4.4: the response contains a case-insensitive "unknown"
marker. -/
def contains_unknown (response : String) : Bool :=
  containsSub "unknown".data (pyLower response).data

/-- Modelled from the spec: the escalation policy of the third variant is not
in src/.  Spec §4.4 with the constants of the claim: escalate when confidence
is below the fixed threshold 0.7, OR the response contains a case-insensitive
"unknown" marker, OR the trimmed response length is below 10 characters. -/
def should_escalate (confidence : ℚ) (response : String) : Bool :=
  decide (confidence < 7/10) || contains_unknown response
    || decide ((pyStrip response).length < 10)

/-- Modelled from the spec: the fixed bilingual human-handoff notice of the
third variant is not in src/; the spec fixes only that there is one fixed
notice per detected language, not its wording. -/
def handoff_notice : SpecLang → String
  | .english => " Your query has been forwarded to a human agricultural expert."
  | .malayalam => " നിങ്ങളുടെ ചോദ്യം ഒരു വിദഗ്ധന് കൈമാറി."

/-- Modelled from the spec: one overflow-log record of the third variant
(original query, context, generated response), spec §4.4. -/
structure OverflowRecord where
  query : String
  context : String
  response : String
deriving DecidableEq

/-- Modelled from the spec: the escalation step of the third variant is not in
src/.  Spec §4.4: on escalation, append the bilingual human-handoff notice
chosen by detected language to the response and append one record to the
append-only overflow file; otherwise leave both untouched. -/
def apply_escalation (lang : SpecLang) (confidence : ℚ)
    (query context response : String) (overflow : List OverflowRecord) :
    String × List OverflowRecord :=
  if should_escalate confidence response then
    (response ++ handoff_notice lang, overflow ++ [⟨query, context, response⟩])
  else
    (response, overflow)

/-!
Startup check, src/agri_chatbot.py lines 20–29.  An environment variable is an
`Option String` (`none` = unset); Python truthiness of the looked-up value
decides the check, and the two API clients are constructed only after it
passes.
-/

/-- Python truthiness of `os.getenv`'s result: `None` and the empty string are
falsy, every other string is truthy. -/
def truthy : Option String → Bool
  | none => false
  | some s => !(s = "")

/-- Outcome of module start-up: exit code (if the process terminated),
console output, and whether the two API clients were constructed. -/
structure StartupResult where
  exitCode : Option Nat
  console : List String
  clientsConstructed : Bool
deriving DecidableEq

/-- Embedding of lines 20–29: `if not GEMINI_API_KEY or not DEEPGRAM_API_KEY:
print(...); exit(1)`, then `client = genai.Client(...)` and
`deepgram = DeepgramClient(...)`. -/
def startup (gemini_key deepgram_key : Option String) : StartupResult :=
  if !truthy gemini_key || !truthy deepgram_key then
    ⟨some 1, ["Error: API keys not set. Please check your .env file."], false⟩
  else
    ⟨none, [], true⟩

/-!
Speech-to-text with retry, src/agri_chatbot.py lines 103–134
(`transcribe_audio`).  The Deepgram collaborator is an oracle
`Nat → Option String`: `res i = some t` means attempt `i` (0-based) yields
transcript `t`, `res i = none` means attempt `i` raises.  The embedding
returns the result string, the number of attempts made, and the list of sleep
durations performed (in seconds, in order).
-/

/-- One pass of the `for attempt in range(max_retries)` loop of
`transcribe_audio`, with `retry_delay = 5`: on success return the stripped
transcript at once; on failure sleep 5 s and retry unless this was the last
attempt, in which case return the empty string. -/
def transcribe_attempt_loop (res : Nat → Option String) :
    Nat → Nat → String × Nat × List Nat
  | _, 0 => ("", 0, [])
  | attempt, r + 1 =>
    match res attempt with
    | some t => (pyStrip t, 1, [])
    | none =>
      if r = 0 then ("", 1, [])
      else
        let rest := transcribe_attempt_loop res (attempt + 1) r
        (rest.1, rest.2.1 + 1, 5 :: rest.2.2)

/-- Embedding of `transcribe_audio`: when the audio file does not exist,
return "" without any attempt; otherwise run the 3-attempt retry loop. -/
def transcribe_audio (fileExists : Bool) (res : Nat → Option String) :
    String × Nat × List Nat :=
  if fileExists then transcribe_attempt_loop res 0 3 else ("", 0, [])

/-!
Text generation, src/agri_chatbot.py lines 136–154 (`generate_text`).  The
Gemini collaborator is left abstract: the embedding returns WHAT the function
does — answer with the fixed greeting, or call the model once with given
contents.  `currentDate` stands for `datetime.now().strftime(...)`.
-/

/-- The greeting prompts special-cased at line 139. -/
def greeting_prompts : List String := ["hello", "hello?", "hi", "hi.", "hiiiii"]

/-- The fixed greeting reply of line 140. -/
def greeting_reply : String :=
  "Hi! I'm your Kerala Agri Chatbot. Ask me about farming, weather, or anything else!"

/-- The conciseness instruction appended at line 148. -/
def concise_suffix : String :=
  " Please keep the response concise and under 2000 characters."

/-- Action taken by `generate_text`: reply with the fixed greeting without
calling the model, or call the generation model exactly once with the given
contents. -/
inductive GenTextAction where
  | greeting (reply : String)
  | modelCall (contents : String)
deriving DecidableEq

/-- Embedding of `generate_text`: greeting prompts short-circuit; otherwise
the current date is inserted when the lowercased prompt contains "today", the
conciseness instruction is appended, and the model is called once. -/
def generate_text_action (prompt : String) (currentDate : String) : GenTextAction :=
  if pyStrip (pyLower prompt) ∈ greeting_prompts then
    .greeting greeting_reply
  else
    let p1 :=
      if containsSub "today".data (pyLower prompt).data then
        prompt ++ " (Current date is " ++ currentDate ++ ")"
      else prompt
    .modelCall (p1 ++ concise_suffix)

/-!
Text-to-speech, src/agri_chatbot.py lines 156–215 (`async_generate_speech`
and `generate_speech`).  The file system is a `List String` of existing file
names.  The Deepgram synthesis call, pygame playback and `os.unlink` are
oracles; an `Option String` oracle carries the exception message when the
operation raises.
-/

/-- Oracles for one `generate_speech` call: whether the synthesis call leaves
the output file on disk, whether it raises (and with which message), whether
playback raises, whether `os.unlink` raises. -/
structure SpeechEnv where
  synthCreates : Bool
  synthErr : Option String
  playErr : Option String
  unlinkErr : Option String

/-- Result of one `generate_speech` call: the file system afterwards, the
console output, and the text actually passed to the synthesis collaborator. -/
structure SpeechOut where
  fs : List String
  console : List String
  sent : String

/-- The text handed to the Deepgram synthesis call, lines 175–180: truncated
to the first `MAX_CHAR_LIMIT = 2000` characters when longer. -/
def tts_payload_text (text : String) : String :=
  if text.length > 2000 then text.take 2000 else text

/-- Embedding of `generate_speech` (lines 170–215): warn on non-English,
truncate over-long text, synthesize to a fresh temporary file, play it when
present, and in the `finally` block delete the temporary file whenever it
exists, logging (not raising) deletion errors. -/
def generate_speech_model (text : String) (lang : String) (fs : List String)
    (filename : String) (env : SpeechEnv) : SpeechOut :=
  let warnLang := if lang = "en" then [] else ["Warning: Only English TTS supported."]
  let warnTrunc :=
    if text.length > 2000 then
      ["Warning: Text exceeds 2000 characters (" ++ toString text.length
        ++ "). Truncating to fit."]
    else []
  let payload := tts_payload_text text
  let fs1 := if env.synthCreates then filename :: fs else fs
  let tryCon :=
    match env.synthErr with
    | some m =>
      ["Deepgram TTS async error: " ++ m, "Deepgram Text-to-Speech error: " ++ m]
    | none =>
      if filename ∈ fs1 then
        match env.playErr with
        | some m => ["Error playing audio with pygame: " ++ m]
        | none => []
      else ["Error: Audio file was not generated."]
  let fin :=
    if filename ∈ fs1 then
      match env.unlinkErr with
      | some m =>
        (fs1, ["Failed to delete temporary file " ++ filename ++ ": " ++ m])
      | none => (fs1.filter (fun g => g != filename), [])
    else (fs1, [])
  ⟨fin.1, warnLang ++ warnTrunc ++ tryCon ++ fin.2, payload⟩

/-- Embedding of the voice-mode cleanup, src/agri_chatbot.py lines 235–238:
`try: os.unlink(audio_file) except ...: print(...)` — returns the file system
afterwards and the console output. -/
def voice_unlink (fs : List String) (audio_file : String)
    (unlinkErr : Option String) : List String × List String :=
  match unlinkErr with
  | none => (fs.filter (fun g => g != audio_file), [])
  | some m => (fs, ["Failed to delete temporary file " ++ audio_file ++ ": " ++ m])

/-!
Main chatbot loop, src/agri_chatbot.py lines 220–258 (`chatbot`).  One
iteration of the `while True` loop is embedded as a function of the mode
input and oracles for every downstream dependency; the result records whether
the loop breaks or continues, whether `generate_text` was invoked, the
response produced (if any), and the console output of the turn.
-/

/-- How one loop iteration ends: `halt` = the `break` at line 227, `next` =
reach the end of the body or a `continue`, returning to the input prompt. -/
inductive Outcome where
  | halt
  | next
deriving DecidableEq

/-- Oracles for one iteration of the chatbot loop. -/
structure TurnEnv where
  /-- the raw string typed at the mode prompt -/
  modeInput : String
  /-- `record_audio()` result: temp file name, or `none` on failure -/
  recordedFile : Option String
  /-- whether the recorded file exists when `transcribe_audio` checks -/
  sttFileExists : Bool
  /-- Deepgram speech-to-text oracle, per attempt -/
  sttResults : Nat → Option String
  /-- exception raised by `os.unlink` on the recorded file, if any -/
  voiceUnlinkErr : Option String
  /-- the raw string typed at the `You:` prompt -/
  typed : String
  /-- `generate_text` outcome: `ok` response or raised exception message -/
  genResult : Except String String
  /-- file system when `generate_speech` allocates its temp file -/
  fs : List String
  /-- the temp file name `tempfile.mktemp` returns in `generate_speech` -/
  ttsFile : String
  /-- oracles inside `generate_speech` -/
  speech : SpeechEnv

/-- Result of one iteration of the chatbot loop. -/
structure TurnOut where
  outcome : Outcome
  genCalled : Bool
  response : Option String
  console : List String

/-- Lines 245–258: the shared tail of the voice and text branches — skip empty
input, otherwise call `generate_text` inside `try` and speak the response;
any exception is printed and the loop continues. -/
def process_input (env : TurnEnv) (user_input : String) (pre : List String) : TurnOut :=
  if user_input = "" then
    ⟨.next, false, none,
      pre ++ ["No input detected. For voice, ensure you're speaking clearly in English."]⟩
  else
    match env.genResult with
    | .error e => ⟨.next, true, none, pre ++ ["🔎 Asking Gemini...", "Error: " ++ e]⟩
    | .ok r =>
      let sp := generate_speech_model r "en" env.fs env.ttsFile env.speech
      ⟨.next, true, some r,
        pre ++ ["🔎 Asking Gemini...", "🤖 Bot: " ++ r,
          "Response length: " ++ toString r.length ++ " characters",
          "🔊 Speaking..."] ++ sp.console⟩

/-- Embedding of one iteration of the `while True` loop of `chatbot`
(lines 223–258): mode `q` breaks, mode `1` records, transcribes and deletes
the recording, mode `2` reads typed text, anything else is an invalid option;
then `process_input` runs the rest of the turn. -/
def chatbot_turn (env : TurnEnv) : TurnOut :=
  let mode := pyLower (pyStrip env.modeInput)
  if mode = "q" then
    ⟨.halt, false, none, ["Goodbye!"]⟩
  else if mode = "1" then
    match env.recordedFile with
    | none => ⟨.next, false, none, ["Failed to record audio. Try again."]⟩
    | some f =>
      let user_input := (transcribe_audio env.sttFileExists env.sttResults).1
      process_input env user_input
        (["🗣 You said: " ++ user_input] ++ (voice_unlink env.fs f env.voiceUnlinkErr).2)
  else if mode = "2" then
    process_input env (pyStrip env.typed) []
  else
    ⟨.next, false, none, ["Invalid option."]⟩

/-!
Theorems.
-/

/-- C1: escalation occurs exactly when confidence < 0.7, or the response
contains a case-insensitive "unknown" substring, or its trimmed length is
below 10; on escalation the bilingual notice of the detected language is
appended exactly once and exactly one overflow record is appended; otherwise
response and overflow log are untouched. -/
theorem escalation_policy_correct (lang : SpecLang) (confidence : ℚ)
    (query context response : String) (overflow : List OverflowRecord) :
    (¬ confidence < 7/10 → contains_unknown response = false →
      10 ≤ (pyStrip response).length →
      apply_escalation lang confidence query context response overflow
        = (response, overflow))
    ∧ (confidence < 7/10 ∨ contains_unknown response = true
        ∨ (pyStrip response).length < 10 →
      apply_escalation lang confidence query context response overflow
        = (response ++ handoff_notice lang, overflow ++ [⟨query, context, response⟩])) := by
  constructor
  · intro h1 h2 h3
    have h3' : ¬ (pyStrip response).length < 10 := by omega
    simp [apply_escalation, should_escalate, h1, h2, h3']
  · intro h
    have hesc : should_escalate confidence response = true := by
      rcases h with h | h | h <;> simp [should_escalate, h]
    simp [apply_escalation, hesc]

/-- Witness for C1: a good response is left alone, a low-confidence response
is escalated. -/
theorem escalation_policy_correct_witness :
    apply_escalation .english (8/10) "q" "ctx" "Plant rice in June." []
      = ("Plant rice in June.", [])
    ∧ apply_escalation .malayalam (1/2) "q" "ctx" "Plant rice in June." []
      = ("Plant rice in June." ++ handoff_notice .malayalam,
         [⟨"q", "ctx", "Plant rice in June."⟩]) :=
  ⟨(escalation_policy_correct .english (8/10) "q" "ctx" "Plant rice in June." []).1
      (by norm_num) (by decide) (by decide),
   (escalation_policy_correct .malayalam (1/2) "q" "ctx" "Plant rice in June." []).2
      (Or.inl (by norm_num))⟩

/-- C2: text containing a character of the Malayalam Unicode block is
classified as Malayalam; pure-ASCII text is classified as English. -/
theorem detect_language_correct (text : String) :
    ((∃ c ∈ text.data, is_malayalam_char c = true) →
      detect_language text = .malayalam)
    ∧ ((∀ c ∈ text.data, c.toNat < 128) → detect_language text = .english) := by
  constructor
  · rintro ⟨c, hc, hmal⟩
    have hany : text.data.any is_malayalam_char = true :=
      List.any_eq_true.mpr ⟨c, hc, hmal⟩
    simp [detect_language, hany]
  · intro h
    have hany : text.data.any is_malayalam_char = false := by
      rw [List.any_eq_false]
      intro c hc hmal
      have := h c hc
      simp [is_malayalam_char] at hmal
      omega
    simp [detect_language, hany]

/-- Witness for C2: a Malayalam string and an ASCII string. -/
theorem detect_language_correct_witness :
    detect_language "അരി" = .malayalam ∧ detect_language "rice" = .english :=
  ⟨(detect_language_correct "അരി").1 ⟨'അ', by decide, by decide⟩,
   (detect_language_correct "rice").2 (by decide)⟩

/-- C3: for an existing audio file, when every attempt raises,
`transcribe_audio` makes exactly 3 attempts with a 5-second sleep between
consecutive attempts and returns ""; when attempt `k` succeeds first, the
stripped transcript is returned after `k + 1` attempts and `k` sleeps. -/
theorem transcribe_audio_retry (res : Nat → Option String) :
    ((∀ i, i < 3 → res i = none) → transcribe_audio true res = ("", 3, [5, 5]))
    ∧ (∀ k t, k < 3 → (∀ i, i < k → res i = none) → res k = some t →
      transcribe_audio true res = (pyStrip t, k + 1, List.replicate k 5)) := by
  constructor
  · intro h
    have h0 := h 0 (by omega)
    have h1 := h 1 (by omega)
    have h2 := h 2 (by omega)
    simp [transcribe_audio, transcribe_attempt_loop, h0, h1, h2]
  · intro k t hk hprev hsucc
    interval_cases k
    · simp [transcribe_audio, transcribe_attempt_loop, hsucc]
    · have h0 := hprev 0 (by omega)
      simp [transcribe_audio, transcribe_attempt_loop, h0, hsucc]
    · have h0 := hprev 0 (by omega)
      have h1 := hprev 1 (by omega)
      simp [transcribe_audio, transcribe_attempt_loop, h0, h1, hsucc]

/-- Witness for C3: all attempts fail, and the second attempt succeeds. -/
theorem transcribe_audio_retry_witness :
    transcribe_audio true (fun _ => none) = ("", 3, [5, 5])
    ∧ transcribe_audio true (fun i => if i = 1 then some " rice " else none)
      = (pyStrip " rice ", 1 + 1, List.replicate 1 5) :=
  ⟨(transcribe_audio_retry (fun _ => none)).1 (fun _ _ => rfl),
   (transcribe_audio_retry (fun i => if i = 1 then some " rice " else none)).2
      1 " rice " (by omega) (by intro i hi; interval_cases i; rfl) (by rfl)⟩

/-- C4: the text handed to the speech-synthesis collaborator is the input
itself when at most 2000 characters, and its first 2000 characters otherwise;
it never exceeds 2000 characters. -/
theorem generate_speech_truncates (text lang : String) (fs : List String)
    (filename : String) (env : SpeechEnv) :
    (text.length ≤ 2000 →
      (generate_speech_model text lang fs filename env).sent = text)
    ∧ (2000 < text.length →
      (generate_speech_model text lang fs filename env).sent = text.take 2000)
    ∧ (generate_speech_model text lang fs filename env).sent.length ≤ 2000 := by
  refine ⟨fun h => ?_, fun h => ?_, ?_⟩
  · simp [generate_speech_model, tts_payload_text, Nat.not_lt.mpr h]
  · simp [generate_speech_model, tts_payload_text, h]
  · by_cases h : 2000 < text.length
    · obtain ⟨l⟩ := text
      simp only [String.length_mk] at h
      simp [generate_speech_model, tts_payload_text, h, String.take_eq]
    · simp [generate_speech_model, tts_payload_text, h]
      omega

/-- Witness for C4: a short text is passed through, a 2001-character text is
cut to 2000 characters. -/
theorem generate_speech_truncates_witness :
    (generate_speech_model "Plant rice." "en" [] "t.mp3" ⟨true, none, none, none⟩).sent
      = "Plant rice."
    ∧ (generate_speech_model (String.mk (List.replicate 2001 'a')) "en" [] "t.mp3"
        ⟨true, none, none, none⟩).sent
      = (String.mk (List.replicate 2001 'a')).take 2000 :=
  ⟨(generate_speech_truncates "Plant rice." "en" [] "t.mp3" ⟨true, none, none, none⟩).1
      (by decide),
   (generate_speech_truncates (String.mk (List.replicate 2001 'a')) "en" [] "t.mp3"
      ⟨true, none, none, none⟩).2.1
      (by simp only [String.length_mk, List.length_replicate]; omega)⟩

/-- C8: a missing API key makes start-up print the error and exit with code 1
before any client is constructed; with both keys present (set to non-empty
values), start-up does not terminate and constructs the clients. -/
theorem startup_check_correct (g d : Option String) :
    ((g = none ∨ d = none) →
      startup g d
        = ⟨some 1, ["Error: API keys not set. Please check your .env file."], false⟩)
    ∧ (truthy g = true → truthy d = true → startup g d = ⟨none, [], true⟩) := by
  constructor
  · rintro (rfl | rfl) <;> simp [startup, truthy]
  · intro h1 h2
    simp [startup, h1, h2]

/-- Witness for C8: one unset key exits, two non-empty keys proceed. -/
theorem startup_check_correct_witness :
    startup none (some "k")
      = ⟨some 1, ["Error: API keys not set. Please check your .env file."], false⟩
    ∧ startup (some "a") (some "b") = ⟨none, [], true⟩ :=
  ⟨(startup_check_correct none (some "k")).1 (Or.inl rfl),
   (startup_check_correct (some "a") (some "b")).2 (by decide) (by decide)⟩

/-- C9 counterexample: for the prompt "today" the model is not called with the
prompt plus the conciseness instruction alone — the current date is inserted
in between. -/
theorem generate_text_today_counterexample :
    generate_text_action "today" "Sunday, October 12, 2025"
      ≠ GenTextAction.modelCall ("today" ++ concise_suffix) := by decide

/-- C9 (amended): greeting prompts get the fixed greeting without a model
call; every other prompt triggers exactly one model call, whose contents are
the prompt followed by the conciseness instruction, except that a current-date
note is inserted before the instruction when the lowercased prompt contains
"today". -/
theorem generate_text_behavior (prompt currentDate : String) :
    (pyStrip (pyLower prompt) ∈ greeting_prompts →
      generate_text_action prompt currentDate = .greeting greeting_reply)
    ∧ (pyStrip (pyLower prompt) ∉ greeting_prompts →
        containsSub "today".data (pyLower prompt).data = false →
      generate_text_action prompt currentDate
        = .modelCall (prompt ++ concise_suffix))
    ∧ (pyStrip (pyLower prompt) ∉ greeting_prompts →
        containsSub "today".data (pyLower prompt).data = true →
      generate_text_action prompt currentDate
        = .modelCall (prompt ++ " (Current date is " ++ currentDate ++ ")"
            ++ concise_suffix)) := by
  refine ⟨fun h => ?_, fun h hc => ?_, fun h hc => ?_⟩
  · simp [generate_text_action, h]
  · simp [generate_text_action, h, hc]
  · simp [generate_text_action, h, hc]

/-- Witness for C9: a greeting, a today-free prompt, and the prompt "today". -/
theorem generate_text_behavior_witness :
    generate_text_action " Hello " "Monday" = .greeting greeting_reply
    ∧ generate_text_action "When should I plant rice?" "Monday"
      = .modelCall ("When should I plant rice?" ++ concise_suffix)
    ∧ generate_text_action "today" "Monday"
      = .modelCall ("today" ++ " (Current date is " ++ "Monday" ++ ")" ++ concise_suffix) :=
  ⟨(generate_text_behavior " Hello " "Monday").1 (by decide),
   (generate_text_behavior "When should I plant rice?" "Monday").2.1 (by decide) (by decide),
   (generate_text_behavior "today" "Monday").2.2 (by decide) (by decide)⟩

/-- Helper: the first component of the retry loop is "" when every attempt
fails. -/
theorem transcribe_loop_all_none_fst (res : Nat → Option String)
    (h : ∀ i, res i = none) : ∀ a r, (transcribe_attempt_loop res a r).1 = "" := by
  intro a r
  induction r generalizing a with
  | zero => rfl
  | succ n ih =>
    by_cases hn : n = 0
    · simp [transcribe_attempt_loop, h a, hn]
    · simp [transcribe_attempt_loop, h a, hn, ih]

/-- Helper: empty input short-circuits `process_input`. -/
theorem process_input_empty (env : TurnEnv) (pre : List String) :
    process_input env "" pre
      = ⟨.next, false, none,
          pre ++ ["No input detected. For voice, ensure you're speaking clearly in English."]⟩ := by
  simp [process_input]

/-- Helper: `process_input` always continues the loop. -/
theorem process_input_outcome_next (env : TurnEnv) (u : String) (pre : List String) :
    (process_input env u pre).outcome = Outcome.next := by
  unfold process_input
  split
  · rfl
  · rcases h : env.genResult with e | r <;> simp [h]

/-- Helper: a raised generation error is printed by `process_input`. -/
theorem process_input_gen_err_mem (env : TurnEnv) (u : String) (pre : List String)
    (e : String) (hu : ¬ u = "") (he : env.genResult = .error e) :
    ("Error: " ++ e) ∈ (process_input env u pre).console := by
  unfold process_input
  simp [hu, he]

/-- Helper: a synthesis exception is printed by `generate_speech`. -/
theorem generate_speech_synth_err_mem (text lang : String) (fs : List String)
    (filename : String) (env : SpeechEnv) (m : String) (hm : env.synthErr = some m) :
    ("Deepgram Text-to-Speech error: " ++ m)
      ∈ (generate_speech_model text lang fs filename env).console := by
  unfold generate_speech_model
  simp [hm]

/-- Helper: a synthesis exception is printed by `process_input` when the
generated response is spoken. -/
theorem process_input_tts_err_mem (env : TurnEnv) (u : String) (pre : List String)
    (r m : String) (hu : ¬ u = "") (hr : env.genResult = .ok r)
    (hm : env.speech.synthErr = some m) :
    ("Deepgram Text-to-Speech error: " ++ m) ∈ (process_input env u pre).console := by
  have hmem := generate_speech_synth_err_mem r "en" env.fs env.ttsFile env.speech m hm
  unfold process_input
  simp [hu, hr, hmem]

/-- Helper: a generation error, when generation was reached, is printed. -/
theorem process_input_gen_err (env : TurnEnv) (u : String) (pre : List String)
    (e : String) (he : env.genResult = .error e)
    (hgc : (process_input env u pre).genCalled = true) :
    ("Error: " ++ e) ∈ (process_input env u pre).console := by
  by_cases hu : u = ""
  · subst hu
    rw [process_input_empty] at hgc
    simp at hgc
  · exact process_input_gen_err_mem env u pre e hu he

/-- Helper: a synthesis exception, when generation was reached and succeeded,
is printed. -/
theorem process_input_tts_err (env : TurnEnv) (u : String) (pre : List String)
    (r m : String) (hr : env.genResult = .ok r) (hm : env.speech.synthErr = some m)
    (hgc : (process_input env u pre).genCalled = true) :
    ("Deepgram Text-to-Speech error: " ++ m) ∈ (process_input env u pre).console := by
  by_cases hu : u = ""
  · subst hu
    rw [process_input_empty] at hgc
    simp at hgc
  · exact process_input_tts_err_mem env u pre r m hu hr hm

/-- Helper: any turn whose stripped, lowered mode input is not "q" continues
the loop. -/
theorem chatbot_turn_outcome_next (env : TurnEnv)
    (hq : ¬ pyLower (pyStrip env.modeInput) = "q") :
    (chatbot_turn env).outcome = Outcome.next := by
  simp only [chatbot_turn]
  split_ifs with h1 h2
  · rcases h : env.recordedFile with _ | f <;> simp [h, process_input_outcome_next]
  · exact process_input_outcome_next ..
  · rfl

/-- Helper: at the chatbot level, a raised generation error, when generation
was reached, is printed to the console. -/
theorem chatbot_turn_gen_err (env : TurnEnv) (e : String)
    (he : env.genResult = .error e)
    (hgc : (chatbot_turn env).genCalled = true) :
    ("Error: " ++ e) ∈ (chatbot_turn env).console := by
  simp only [chatbot_turn] at hgc ⊢
  split_ifs at hgc ⊢ with h1 h2 h3
  all_goals try (rcases h : env.recordedFile with _ | f <;> simp only [h] at hgc ⊢)
  all_goals first
    | exact process_input_gen_err env _ _ e he hgc
    | simp at hgc

/-- Helper: at the chatbot level, a synthesis exception after a successful
generation, when generation was reached, is printed to the console. -/
theorem chatbot_turn_tts_err (env : TurnEnv) (r m : String)
    (hr : env.genResult = .ok r) (hm : env.speech.synthErr = some m)
    (hgc : (chatbot_turn env).genCalled = true) :
    ("Deepgram Text-to-Speech error: " ++ m) ∈ (chatbot_turn env).console := by
  simp only [chatbot_turn] at hgc ⊢
  split_ifs at hgc ⊢ with h1 h2 h3
  all_goals try (rcases h : env.recordedFile with _ | f <;> simp only [h] at hgc ⊢)
  all_goals first
    | exact process_input_tts_err env _ _ r m hr hm hgc
    | simp at hgc

/-- Helper: a voice turn whose transcription result is empty skips the rest
of the pipeline. -/
theorem chatbot_turn_voice_empty (env : TurnEnv) (f : String)
    (hmode : pyLower (pyStrip env.modeInput) = "1")
    (hrec : env.recordedFile = some f)
    (htr : (transcribe_audio env.sttFileExists env.sttResults).1 = "") :
    chatbot_turn env
      = ⟨.next, false, none,
          (["🗣 You said: " ++ ""] ++ (voice_unlink env.fs f env.voiceUnlinkErr).2)
            ++ ["No input detected. For voice, ensure you're speaking clearly in English."]⟩ := by
  simp only [chatbot_turn, hmode, hrec, htr, process_input_empty]
  simp

/-- Helper: in voice mode, when every speech-to-text attempt raises,
generation is skipped and the no-input message is printed. -/
theorem chatbot_turn_stt_all_fail (env : TurnEnv) (f : String)
    (hmode : pyLower (pyStrip env.modeInput) = "1")
    (hrec : env.recordedFile = some f)
    (hstt : ∀ i, env.sttResults i = none) :
    (chatbot_turn env).genCalled = false
    ∧ "No input detected. For voice, ensure you're speaking clearly in English."
        ∈ (chatbot_turn env).console := by
  have htr : (transcribe_audio env.sttFileExists env.sttResults).1 = "" := by
    unfold transcribe_audio
    split
    · exact transcribe_loop_all_none_fst env.sttResults hstt 0 3
    · rfl
  rw [chatbot_turn_voice_empty env f hmode hrec htr]
  simp

/-- C5: a turn whose mode input is not the quit keyword always returns to the
input prompt — downstream failures never terminate the loop — and a raised
generation error, a speech-synthesis exception, or an all-attempts
speech-to-text failure each surface as a console message. -/
theorem chatbot_failures_nonfatal (env : TurnEnv)
    (hq : ¬ pyLower (pyStrip env.modeInput) = "q") :
    (chatbot_turn env).outcome = Outcome.next
    ∧ (∀ e, env.genResult = Except.error e → (chatbot_turn env).genCalled = true →
        ("Error: " ++ e) ∈ (chatbot_turn env).console)
    ∧ (∀ r m, env.genResult = Except.ok r → env.speech.synthErr = some m →
        (chatbot_turn env).genCalled = true →
        ("Deepgram Text-to-Speech error: " ++ m) ∈ (chatbot_turn env).console)
    ∧ (∀ f, pyLower (pyStrip env.modeInput) = "1" → env.recordedFile = some f →
        (∀ i, env.sttResults i = none) →
        (chatbot_turn env).genCalled = false
        ∧ "No input detected. For voice, ensure you're speaking clearly in English."
            ∈ (chatbot_turn env).console) :=
  ⟨chatbot_turn_outcome_next env hq,
   fun e he hgc => chatbot_turn_gen_err env e he hgc,
   fun r m hr hm hgc => chatbot_turn_tts_err env r m hr hm hgc,
   fun f hmode hrec hstt => chatbot_turn_stt_all_fail env f hmode hrec hstt⟩

/-- Witness for C5: a text turn whose generation raises, a text turn whose
synthesis raises, and a voice turn whose transcription always raises. -/
theorem chatbot_failures_nonfatal_witness :
    (chatbot_turn ⟨"2", none, false, fun _ => none, none, "Is rain likely?",
        Except.error "boom", [], "t.mp3", ⟨false, none, none, none⟩⟩).outcome
      = Outcome.next
    ∧ ("Error: " ++ "boom")
      ∈ (chatbot_turn ⟨"2", none, false, fun _ => none, none, "Is rain likely?",
          Except.error "boom", [], "t.mp3", ⟨false, none, none, none⟩⟩).console
    ∧ ("Deepgram Text-to-Speech error: " ++ "net down")
      ∈ (chatbot_turn ⟨"2", none, false, fun _ => none, none, "Is rain likely?",
          Except.ok "Plant rice.", [], "t.mp3", ⟨false, some "net down", none, none⟩⟩).console
    ∧ (chatbot_turn ⟨"1", some "a.wav", true, fun _ => none, none, "",
          Except.ok "", [], "t.mp3", ⟨false, none, none, none⟩⟩).genCalled = false :=
  ⟨(chatbot_failures_nonfatal ⟨"2", none, false, fun _ => none, none, "Is rain likely?",
      Except.error "boom", [], "t.mp3", ⟨false, none, none, none⟩⟩ (by decide)).1,
   (chatbot_failures_nonfatal ⟨"2", none, false, fun _ => none, none, "Is rain likely?",
      Except.error "boom", [], "t.mp3", ⟨false, none, none, none⟩⟩ (by decide)).2.1
      "boom" rfl (by decide),
   (chatbot_failures_nonfatal ⟨"2", none, false, fun _ => none, none, "Is rain likely?",
      Except.ok "Plant rice.", [], "t.mp3", ⟨false, some "net down", none, none⟩⟩
      (by decide)).2.2.1 "Plant rice." "net down" rfl rfl (by decide),
   ((chatbot_failures_nonfatal ⟨"1", some "a.wav", true, fun _ => none, none, "",
      Except.ok "", [], "t.mp3", ⟨false, none, none, none⟩⟩ (by decide)).2.2.2
      "a.wav" (by decide) rfl (fun _ => rfl)).1⟩

/-- C6: a turn with empty acquired input — empty typed text after stripping,
or an empty transcription result — makes no generation call, produces no
response, and returns to the input prompt. -/
theorem empty_input_skips_generation (env : TurnEnv) :
    (pyLower (pyStrip env.modeInput) = "2" → pyStrip env.typed = "" →
      chatbot_turn env
        = ⟨Outcome.next, false, none,
            ["No input detected. For voice, ensure you're speaking clearly in English."]⟩)
    ∧ (∀ f, pyLower (pyStrip env.modeInput) = "1" → env.recordedFile = some f →
      (transcribe_audio env.sttFileExists env.sttResults).1 = "" →
      (chatbot_turn env).outcome = Outcome.next
      ∧ (chatbot_turn env).genCalled = false
      ∧ (chatbot_turn env).response = none) := by
  constructor
  · intro hmode htyped
    simp only [chatbot_turn, hmode, htyped, process_input_empty]
    simp
  · intro f hmode hrec htr
    rw [chatbot_turn_voice_empty env f hmode hrec htr]
    exact ⟨rfl, rfl, rfl⟩

/-- Witness for C6: empty typed text, and a voice turn with an empty
transcript. -/
theorem empty_input_skips_generation_witness :
    chatbot_turn ⟨"2", none, false, fun _ => none, none, "   ",
        Except.ok "r", [], "t.mp3", ⟨false, none, none, none⟩⟩
      = ⟨Outcome.next, false, none,
          ["No input detected. For voice, ensure you're speaking clearly in English."]⟩
    ∧ (chatbot_turn ⟨"1", some "a.wav", true, fun _ => some "", none, "x",
        Except.ok "r", [], "t.mp3", ⟨false, none, none, none⟩⟩).genCalled = false :=
  ⟨(empty_input_skips_generation ⟨"2", none, false, fun _ => none, none, "   ",
      Except.ok "r", [], "t.mp3", ⟨false, none, none, none⟩⟩).1 (by decide) (by decide),
   ((empty_input_skips_generation ⟨"1", some "a.wav", true, fun _ => some "", none, "x",
      Except.ok "r", [], "t.mp3", ⟨false, none, none, none⟩⟩).2 "a.wav"
      (by decide) rfl (by decide)).2.1⟩

/-- C7 counterexample: typing "exit" at the input prompt does not terminate
the loop — the quit keyword of the code is "q", so "exit" is an invalid
option and the loop continues. -/
theorem exit_keyword_counterexample :
    (chatbot_turn ⟨"exit", none, false, fun _ => none, none, "",
        Except.ok "", [], "t.mp3", ⟨false, none, none, none⟩⟩).outcome
      ≠ Outcome.halt := by decide

/-- C7 (amended): the exit keyword is "q" (stripped, case-insensitive), not
"exit": entering it at the input prompt terminates the loop, and no pipeline
stage runs for that input — no generation call, no response, only the
goodbye message. -/
theorem quit_keyword_halts (env : TurnEnv)
    (h : pyLower (pyStrip env.modeInput) = "q") :
    chatbot_turn env = ⟨Outcome.halt, false, none, ["Goodbye!"]⟩ := by
  simp [chatbot_turn, h]

/-- Witness for C7: entering " Q " terminates the loop. -/
theorem quit_keyword_halts_witness :
    chatbot_turn ⟨" Q ", none, false, fun _ => none, none, "",
        Except.ok "", [], "t.mp3", ⟨false, none, none, none⟩⟩
      = ⟨Outcome.halt, false, none, ["Goodbye!"]⟩ :=
  quit_keyword_halts ⟨" Q ", none, false, fun _ => none, none, "",
      Except.ok "", [], "t.mp3", ⟨false, none, none, none⟩⟩ (by decide)

/-- C10: after `generate_speech` returns — whatever the synthesis, playback
and file-creation oracles did — its temporary file name is absent from the
file system provided `os.unlink` does not itself raise; likewise the recorded
voice-mode file is absent after its cleanup. -/
theorem temp_audio_files_deleted (text lang : String) (fs : List String)
    (filename : String) (env : SpeechEnv) (fs2 : List String) (g : String)
    (h1 : filename ∉ fs) (h2 : env.unlinkErr = none) :
    filename ∉ (generate_speech_model text lang fs filename env).fs
    ∧ g ∉ (voice_unlink fs2 g none).1 := by
  constructor
  · rcases env with ⟨sc, se, pe, ue⟩
    simp only at h2
    subst h2
    cases sc
    · simp [generate_speech_model, h1]
    · simp [generate_speech_model, List.mem_filter]
  · simp [voice_unlink, List.mem_filter]

/-- Witness for C10: a synthesized file and a recorded file are both gone. -/
theorem temp_audio_files_deleted_witness :
    "t.mp3" ∉ (generate_speech_model "hi" "en" [] "t.mp3" ⟨true, none, none, none⟩).fs
    ∧ "a.wav" ∉ (voice_unlink ["a.wav"] "a.wav" none).1 :=
  temp_audio_files_deleted "hi" "en" [] "t.mp3" ⟨true, none, none, none⟩
    ["a.wav"] "a.wav" (by simp) rfl
